import Mathlib

/-!
Verification of the risk- and distance-adjusted pricing engine of a
pressure-washing quote website.

The definitions below are shallow embeddings of the pricing module
(`calculateRouting`, `calculateQuoteWithMaterial`, the pricing constants)
and of the quote API route handler (`POST` in `src/app/api/quote/route.ts`).
JavaScript numbers are modelled as exact rationals; `Math.round` is
`jsRound` (round half toward positive infinity).  The external Distance
Matrix call is abstracted as a `ProviderOutcome` parameter that enumerates
the observable branches of the source code: every `return` path of
`calculateRouting` corresponds to one constructor or guard below.
-/

namespace PressureWash

/-- JavaScript `Math.round`: round half toward positive infinity. -/
def jsRound (q : ℚ) : ℤ := ⌊q + 1/2⌋

/-- `Math.round(x * 100) / 100`: rounding to two decimal places, as used
throughout the pricing module. -/
def round2 (q : ℚ) : ℚ := ((jsRound (q * 100) : ℤ) : ℚ) / 100

/-- JavaScript `String.prototype.trim()`: drop leading and trailing
whitespace.  Implemented over the character list so that it is computable
by the kernel. -/
def jsTrim (s : String) : String :=
  String.mk (((s.data.dropWhile Char.isWhitespace).reverse.dropWhile
    Char.isWhitespace).reverse)

/-- JavaScript `String.prototype.toLowerCase()` restricted to the ASCII
mapping, which agrees with JavaScript on every material name involved.
Implemented over the character list so that it is computable by the
kernel. -/
def jsToLower (s : String) : String :=
  String.mk (s.data.map Char.toLower)

/-- `ROUTING_CONFIG.MAX_SERVICE_DISTANCE_KM` from the pricing module. -/
def MAX_SERVICE_DISTANCE_KM : ℚ := 45

/-- `ROUTING_CONFIG.SURCHARGE_THRESHOLD_KM` from the pricing module. -/
def SURCHARGE_THRESHOLD_KM : ℚ := 20

/-- `ROUTING_CONFIG.SURCHARGE_RATE_PER_KM` from the pricing module. -/
def SURCHARGE_RATE_PER_KM : ℚ := 2.50

/-- `BASE_RATE_PER_STORY`: the object literal keyed by story count.
A key absent from the object reads as `undefined`, i.e. `none`. -/
def BASE_RATE_PER_STORY (stories : ℚ) : Option ℚ :=
  if stories = 1 then some 350
  else if stories = 2 then some 500
  else if stories = 3 then some 650
  else none

/-- `MATERIAL_MULTIPLIERS`: the record keyed by lowercase material name. -/
def MATERIAL_MULTIPLIERS (material : String) : Option ℚ :=
  if material = "vinyl" then some 1.0
  else if material = "brick" then some 1.1
  else if material = "stucco" then some 1.35
  else none

/-- JavaScript `x || d` applied to a possibly-`undefined` number `x`:
`undefined` and `0` are falsy and select the default `d`. -/
def jsOrDefault : Option ℚ → ℚ → ℚ
  | none, d => d
  | some q, d => if q = 0 then d else q

/-- `enum RoutingError` from the pricing module. -/
inductive RoutingError
  | OUT_OF_SERVICE_AREA
  | API_ERROR
  | INVALID_ADDRESS
deriving DecidableEq

/-- `interface RoutingResult` from the pricing module.  The optional
`error?` field is an `Option`. -/
structure RoutingResult where
  distance : ℚ
  duration : String
  travelSurcharge : ℚ
  isValid : Bool
  error : Option RoutingError
deriving DecidableEq

/-- The observable outcome of the Distance Matrix request made inside
`calculateRouting`, one constructor per branch of the source:
`fetch` throwing (handled by the `catch`), `!response.ok`,
`data.status !== OK`, missing rows/elements, `element.status !== OK`,
and a successful element carrying `distance.value` metres and
`duration.value` seconds. -/
inductive ProviderOutcome
  | fetchThrows
  | responseNotOk
  | statusNotOk
  | emptyRows
  | elementNotOk
  | ok (distanceMeters : ℚ) (durationSeconds : ℚ)
deriving DecidableEq

/-- The `API_ERROR` result value returned by several branches of
`calculateRouting`. -/
def apiErrorResult : RoutingResult :=
  { distance := 0, duration := "0 mins", travelSurcharge := 0,
    isValid := false, error := some RoutingError.API_ERROR }

/-- The `INVALID_ADDRESS` result value returned by several branches of
`calculateRouting`. -/
def invalidAddressResult : RoutingResult :=
  { distance := 0, duration := "0 mins", travelSurcharge := 0,
    isValid := false, error := some RoutingError.INVALID_ADDRESS }

/-- Shallow embedding of `calculateRouting(destinationAddress, googleMapsKey)`.
The API key is abstracted to its truthiness (`hasGoogleMapsKey`), and the
network interaction to a `ProviderOutcome`.  JavaScript
`!destinationAddress || !destinationAddress.trim()` holds exactly when the
trimmed address is the empty string. -/
def calculateRouting (destinationAddress : String) (hasGoogleMapsKey : Bool)
    (provider : ProviderOutcome) : RoutingResult :=
  if jsTrim destinationAddress = "" then
    invalidAddressResult
  else if hasGoogleMapsKey = false then
    apiErrorResult
  else
    match provider with
    | ProviderOutcome.fetchThrows => apiErrorResult
    | ProviderOutcome.responseNotOk => apiErrorResult
    | ProviderOutcome.statusNotOk => apiErrorResult
    | ProviderOutcome.emptyRows => invalidAddressResult
    | ProviderOutcome.elementNotOk => invalidAddressResult
    | ProviderOutcome.ok distanceMeters durationSeconds =>
      let distanceKm := distanceMeters / 1000
      let durationMinutes := jsRound (durationSeconds / 60)
      if MAX_SERVICE_DISTANCE_KM < distanceKm then
        { distance := distanceKm,
          duration := toString durationMinutes ++ " mins",
          travelSurcharge := 0,
          isValid := false,
          error := some RoutingError.OUT_OF_SERVICE_AREA }
      else
        let travelSurcharge :=
          if SURCHARGE_THRESHOLD_KM < distanceKm then
            round2 ((distanceKm - SURCHARGE_THRESHOLD_KM) * SURCHARGE_RATE_PER_KM)
          else 0
        { distance := distanceKm,
          duration := toString durationMinutes ++ " mins",
          travelSurcharge := travelSurcharge,
          isValid := true,
          error := none }

/-- The nested `breakdown` record of `interface QuoteBreakdown`. -/
structure Breakdown where
  basePrice : ℚ
  materialSurcharge : ℚ
  travelSurcharge : ℚ
deriving DecidableEq

/-- `interface QuoteBreakdown` from the pricing module.  `minPrice` and
`maxPrice` are the integer results of `Math.round`. -/
structure QuoteBreakdown where
  basePrice : ℚ
  materialMultiplier : ℚ
  subtotal : ℚ
  travelSurcharge : ℚ
  total : ℚ
  minPrice : ℤ
  maxPrice : ℤ
  breakdown : Breakdown
deriving DecidableEq

/-- Shallow embedding of `calculateQuoteWithMaterial(stories, material,
travelSurcharge)`. -/
def calculateQuoteWithMaterial (stories : ℚ) (material : String)
    (travelSurcharge : ℚ) : QuoteBreakdown :=
  let basePrice := jsOrDefault (BASE_RATE_PER_STORY stories) 650
  let materialMultiplier := jsOrDefault (MATERIAL_MULTIPLIERS (jsToLower material)) 1.0
  let materialSurcharge := basePrice * (materialMultiplier - 1)
  let subtotal := basePrice * materialMultiplier
  let total := round2 (subtotal + travelSurcharge)
  let minPrice := jsRound total
  let maxPrice := jsRound (total * 1.15)
  { basePrice := basePrice,
    materialMultiplier := materialMultiplier,
    subtotal := subtotal,
    travelSurcharge := travelSurcharge,
    total := total,
    minPrice := minPrice,
    maxPrice := maxPrice,
    breakdown :=
      { basePrice := basePrice,
        materialSurcharge := round2 materialSurcharge,
        travelSurcharge := travelSurcharge } }

/-- A character admitted by the `[^\s@]` regex class: not whitespace and
not the at sign. -/
def isEmailChar (c : Char) : Bool := ¬ c.isWhitespace ∧ c ≠ '@'

/-- Shallow embedding of `isValidEmail` in the route handler: the string
matches the anchored regex (one at sign, a nonempty local part, and a
domain containing a dot that is neither its first nor its last character,
all characters outside whitespace and at signs) and has length at most
254. -/
def isValidEmail (email : String) : Bool :=
  let cs := email.toList
  let localPart := cs.takeWhile (fun c => c ≠ '@')
  match cs.dropWhile (fun c => c ≠ '@') with
  | '@' :: domain =>
      localPart ≠ [] ∧ localPart.all isEmailChar ∧
      domain.all isEmailChar ∧
      ((domain.drop 1).dropLast.contains '.') ∧
      email.length ≤ 254
  | _ => false

/-- The quote request body (`interface QuoteRequest` in the route handler).
`squareFeet` and `material` may be absent from the JSON body; the add-on
booleans only feed the notification emails and are omitted.  JavaScript
numbers are exact rationals here (`NaN` is not modelled). -/
structure QuoteRequest where
  address : String
  stories : ℚ
  squareFeet : Option ℚ
  material : Option String
  lat : ℚ
  lng : ℚ
  email : String
deriving DecidableEq

/-- The JSON bodies the `POST` handler can answer with, one constructor per
`NextResponse.json` site after rate limiting: the 400 missing-fields error,
the estate (manual review) response, the 400 invalid-email error, the 503
routing-unavailable error, the 400 out-of-service-area rejection (carrying
`Math.round(distance)`), the 400 invalid-address rejection, and the 200
quote response. -/
inductive ApiResponse
  | missingFields
  | estate
  | invalidEmail
  | routingUnavailable
  | outsideServiceArea (distance : ℤ)
  | invalidAddress
  | quote (minPrice maxPrice : ℤ) (breakdown : Breakdown)
      (routingDistance : ℤ) (routingDuration : String)
      (routingTravelSurcharge : ℚ)
deriving DecidableEq

/-- Whether a handler response is the 200 quote response (a produced
`QuoteBreakdown`). -/
def ApiResponse.isQuote : ApiResponse → Bool
  | ApiResponse.quote _ _ _ _ _ _ => true
  | _ => false

/-- Shallow embedding of the `POST` route handler after rate limiting and
JSON parsing.  `hasGoogleMapsKey` abstracts the truthiness of
`process.env.NEXT_PUBLIC_GOOGLE_MAPS_KEY`; `provider` abstracts the
Distance Matrix interaction.  The missing-fields guard is JavaScript
truthiness (`!address || !stories || !lat || !lng || !email`, numbers being
falsy exactly at `0`) except for `squareFeet`, which is compared against
`undefined` explicitly.  Email dispatch is a side effect with no influence
on the response and is not modelled. -/
def handleQuotePost (body : QuoteRequest) (hasGoogleMapsKey : Bool)
    (provider : ProviderOutcome) : ApiResponse :=
  if body.address = "" ∨ body.stories = 0 ∨ body.lat = 0 ∨ body.lng = 0 ∨
      body.email = "" ∨ body.squareFeet = none then
    ApiResponse.missingFields
  else if 4500 ≤ body.squareFeet.getD 0 then
    ApiResponse.estate
  else if isValidEmail body.email = false then
    ApiResponse.invalidEmail
  else if hasGoogleMapsKey = false then
    ApiResponse.routingUnavailable
  else
    let routingResult := calculateRouting body.address hasGoogleMapsKey provider
    if routingResult.isValid = false ∧
        routingResult.error = some RoutingError.OUT_OF_SERVICE_AREA then
      ApiResponse.outsideServiceArea (jsRound routingResult.distance)
    else if routingResult.isValid = false ∧
        routingResult.error = some RoutingError.INVALID_ADDRESS then
      ApiResponse.invalidAddress
    else
      let quoteBreakdown := calculateQuoteWithMaterial body.stories
        (body.material.getD "vinyl") routingResult.travelSurcharge
      ApiResponse.quote quoteBreakdown.minPrice quoteBreakdown.maxPrice
        quoteBreakdown.breakdown (jsRound routingResult.distance)
        routingResult.duration routingResult.travelSurcharge

/-- A concrete request body, taken from the worked example in the repository
documentation, used to instantiate theorems at concrete inputs. -/
def sampleBody : QuoteRequest :=
  { address := "321 Cedar Lane, Mission, BC",
    stories := 2,
    squareFeet := some 2600,
    material := some "stucco",
    lat := 49.1858,
    lng := -122.3004,
    email := "mike@example.com" }

theorem jsRound_mono {a b : ℚ} (h : a ≤ b) : jsRound a ≤ jsRound b :=
  Int.floor_le_floor (by linarith)

theorem jsRound_eq (q : ℚ) (n : ℤ) (h1 : (n : ℚ) ≤ q + 1/2)
    (h2 : q + 1/2 < (n : ℚ) + 1) : jsRound q = n := by
  unfold jsRound
  exact Int.floor_eq_iff.mpr ⟨h1, by linarith⟩

theorem round2_eq (q : ℚ) (n : ℤ) (h1 : (n : ℚ) ≤ q * 100 + 1/2)
    (h2 : q * 100 + 1/2 < (n : ℚ) + 1) : round2 q = (n : ℚ) / 100 := by
  unfold round2
  rw [jsRound_eq (q * 100) n h1 h2]

theorem round2_mono {a b : ℚ} (h : a ≤ b) : round2 a ≤ round2 b := by
  unfold round2
  have h1 := jsRound_mono (mul_le_mul_of_nonneg_right h (by norm_num : (0:ℚ) ≤ 100))
  have h2 : ((jsRound (a * 100) : ℤ) : ℚ) ≤ ((jsRound (b * 100) : ℤ) : ℚ) :=
    Int.cast_le.mpr h1
  linarith

theorem round2_zero : round2 0 = 0 := by
  rw [round2_eq 0 0 (by norm_num) (by norm_num)]
  norm_num

theorem round2_nonneg {q : ℚ} (h : 0 ≤ q) : 0 ≤ round2 q := by
  have := round2_mono h
  rwa [round2_zero] at this

theorem round2_int_cents (q : ℚ) (k : ℤ) (h : q * 100 = (k : ℚ)) : round2 q = q := by
  unfold round2 jsRound
  rw [h, add_comm, Int.floor_add_int, Int.floor_eq_zero_iff.mpr (by norm_num), zero_add]
  rw [eq_comm, eq_div_iff (by norm_num : (100 : ℚ) ≠ 0)]
  exact h

theorem basePrice_int (stories : ℚ) :
    ∃ b : ℤ, jsOrDefault (BASE_RATE_PER_STORY stories) 650 = (b : ℚ) ∧ 0 < b := by
  unfold BASE_RATE_PER_STORY
  split_ifs
  · exact ⟨350, by norm_num [jsOrDefault], by norm_num⟩
  · exact ⟨500, by norm_num [jsOrDefault], by norm_num⟩
  · exact ⟨650, by norm_num [jsOrDefault], by norm_num⟩
  · exact ⟨650, by norm_num [jsOrDefault], by norm_num⟩

theorem materialMultiplier_frac (material : String) :
    ∃ k : ℤ, jsOrDefault (MATERIAL_MULTIPLIERS material) 1.0 = (k : ℚ) / 100 ∧
      100 ≤ k := by
  unfold MATERIAL_MULTIPLIERS
  split_ifs
  · exact ⟨100, by norm_num [jsOrDefault], by norm_num⟩
  · exact ⟨110, by norm_num [jsOrDefault], by norm_num⟩
  · exact ⟨135, by norm_num [jsOrDefault], by norm_num⟩
  · exact ⟨100, by norm_num [jsOrDefault], by norm_num⟩

/-- C4: on every path of `calculateRouting` (empty input, missing key, the
provider error branches, the out-of-service rejection branch, the success
branch, and the catch handler), a serviceable result carries no rejection
reason and a distance within `MAX_SERVICE_DISTANCE_KM`, and a positive
travel surcharge implies the distance exceeds `SURCHARGE_THRESHOLD_KM`. -/
theorem routing_invariant (addr : String) (hasKey : Bool)
    (provider : ProviderOutcome) :
    ((calculateRouting addr hasKey provider).isValid = true →
      (calculateRouting addr hasKey provider).error = none ∧
      (calculateRouting addr hasKey provider).distance ≤ MAX_SERVICE_DISTANCE_KM) ∧
    (0 < (calculateRouting addr hasKey provider).travelSurcharge →
      SURCHARGE_THRESHOLD_KM < (calculateRouting addr hasKey provider).distance) := by
  cases provider <;>
    simp only [calculateRouting] <;>
    split_ifs <;>
    simp_all [apiErrorResult, invalidAddressResult, not_lt, le_of_lt]

/-- C9: an address that is empty after trimming yields the
`INVALID_ADDRESS` result at once; the result is the same constant for every
provider outcome, so the external provider is never consulted. -/
theorem routing_invalid_on_empty_address (addr : String) (hasKey : Bool)
    (provider : ProviderOutcome) (h : jsTrim addr = "") :
    calculateRouting addr hasKey provider = invalidAddressResult := by
  simp [calculateRouting, h]

/-- Witness for `routing_invalid_on_empty_address` at a whitespace-only
address. -/
theorem routing_invalid_on_empty_address_witness :
    calculateRouting "   " true (ProviderOutcome.ok 1 1) = invalidAddressResult :=
  routing_invalid_on_empty_address "   " true (ProviderOutcome.ok 1 1) (by decide)

theorem routing_serviceable_surcharge (addr : String) (m s : ℚ)
    (haddr : jsTrim addr ≠ "") (hm : m / 1000 ≤ MAX_SERVICE_DISTANCE_KM) :
    (calculateRouting addr true (ProviderOutcome.ok m s)).isValid = true ∧
    (calculateRouting addr true (ProviderOutcome.ok m s)).travelSurcharge =
      round2 (max 0 (m / 1000 - SURCHARGE_THRESHOLD_KM) * SURCHARGE_RATE_PER_KM) := by
  have hlt : ¬ MAX_SERVICE_DISTANCE_KM < m / 1000 := not_lt.2 hm
  simp only [calculateRouting, if_neg haddr, hlt]
  simp only [Bool.true_eq_false, if_false]
  split_ifs with hth
  · rw [max_eq_right (by linarith)]
    simp
  · rw [max_eq_left (by linarith), zero_mul, round2_zero]
    simp

/-- C5: a successful provider lookup whose distance exceeds
`MAX_SERVICE_DISTANCE_KM` is rejected with `OUT_OF_SERVICE_AREA` and a zero
travel surcharge; the rejection takes priority over the surcharge rule. -/
theorem routing_rejects_beyond_max (addr : String) (m s : ℚ)
    (haddr : jsTrim addr ≠ "") (hm : MAX_SERVICE_DISTANCE_KM < m / 1000) :
    (calculateRouting addr true (ProviderOutcome.ok m s)).isValid = false ∧
    (calculateRouting addr true (ProviderOutcome.ok m s)).error =
      some RoutingError.OUT_OF_SERVICE_AREA ∧
    (calculateRouting addr true (ProviderOutcome.ok m s)).travelSurcharge = 0 ∧
    (calculateRouting addr true (ProviderOutcome.ok m s)).distance = m / 1000 := by
  simp [calculateRouting, haddr, hm]

/-- Witness for `routing_rejects_beyond_max` at a 52.3 km lookup. -/
theorem routing_rejects_beyond_max_witness :
    (calculateRouting "a" true (ProviderOutcome.ok 52300 3000)).isValid = false ∧
    (calculateRouting "a" true (ProviderOutcome.ok 52300 3000)).error =
      some RoutingError.OUT_OF_SERVICE_AREA ∧
    (calculateRouting "a" true (ProviderOutcome.ok 52300 3000)).travelSurcharge = 0 ∧
    (calculateRouting "a" true (ProviderOutcome.ok 52300 3000)).distance =
      52300 / 1000 :=
  routing_rejects_beyond_max "a" 52300 3000 (by decide)
    (by norm_num [MAX_SERVICE_DISTANCE_KM])

/-- C6: a successful provider lookup within the service radius is
serviceable and its travel surcharge is
`round2 (max 0 (distanceKm - threshold) * rate)` — in particular zero at or
below the threshold — and the surcharge is monotone in the distance on this
range. -/
theorem routing_surcharge_rule (addr : String) (m1 m2 s : ℚ)
    (haddr : jsTrim addr ≠ "") (h12 : m1 ≤ m2)
    (hm2 : m2 / 1000 ≤ MAX_SERVICE_DISTANCE_KM) :
    (calculateRouting addr true (ProviderOutcome.ok m2 s)).isValid = true ∧
    (calculateRouting addr true (ProviderOutcome.ok m2 s)).travelSurcharge =
      round2 (max 0 (m2 / 1000 - SURCHARGE_THRESHOLD_KM) * SURCHARGE_RATE_PER_KM) ∧
    (m2 / 1000 ≤ SURCHARGE_THRESHOLD_KM →
      (calculateRouting addr true (ProviderOutcome.ok m2 s)).travelSurcharge = 0) ∧
    (calculateRouting addr true (ProviderOutcome.ok m1 s)).travelSurcharge ≤
      (calculateRouting addr true (ProviderOutcome.ok m2 s)).travelSurcharge := by
  have hm1 : m1 / 1000 ≤ MAX_SERVICE_DISTANCE_KM := by linarith
  obtain ⟨hv2, hs2⟩ := routing_serviceable_surcharge addr m2 s haddr hm2
  obtain ⟨hv1, hs1⟩ := routing_serviceable_surcharge addr m1 s haddr hm1
  refine ⟨hv2, hs2, ?_, ?_⟩
  · intro hth
    rw [hs2, max_eq_left (by linarith), zero_mul, round2_zero]
  · rw [hs1, hs2]
    apply round2_mono
    apply mul_le_mul_of_nonneg_right _ (by norm_num [SURCHARGE_RATE_PER_KM])
    exact max_le_max le_rfl (by linarith)

/-- Witness for `routing_surcharge_rule` at 25 km and 35.7 km lookups. -/
theorem routing_surcharge_rule_witness :
    (calculateRouting "a" true (ProviderOutcome.ok 35700 0)).isValid = true ∧
    (calculateRouting "a" true (ProviderOutcome.ok 35700 0)).travelSurcharge =
      round2 (max 0 ((35700 : ℚ) / 1000 - SURCHARGE_THRESHOLD_KM) *
        SURCHARGE_RATE_PER_KM) ∧
    ((35700 : ℚ) / 1000 ≤ SURCHARGE_THRESHOLD_KM →
      (calculateRouting "a" true (ProviderOutcome.ok 35700 0)).travelSurcharge = 0) ∧
    (calculateRouting "a" true (ProviderOutcome.ok 25000 0)).travelSurcharge ≤
      (calculateRouting "a" true (ProviderOutcome.ok 35700 0)).travelSurcharge :=
  routing_surcharge_rule "a" 25000 35700 0 (by decide) (by norm_num)
    (by norm_num [MAX_SERVICE_DISTANCE_KM])

/-- C3 (amended): whenever the travel surcharge fed to the Quote Calculator
is exact to the cent (which every value produced by the Distance Evaluator
is), the reported 2-decimal total equals basePrice plus the reported
2-decimal material surcharge plus the travel surcharge. -/
theorem total_eq_sum_of_cent_surcharge (stories : ℚ) (material : String)
    (ts : ℚ) (h : round2 ts = ts) :
    (calculateQuoteWithMaterial stories material ts).total =
      (calculateQuoteWithMaterial stories material ts).breakdown.basePrice +
      (calculateQuoteWithMaterial stories material ts).breakdown.materialSurcharge +
      (calculateQuoteWithMaterial stories material ts).breakdown.travelSurcharge := by
  obtain ⟨b, hb, hbpos⟩ := basePrice_int stories
  obtain ⟨k, hk, hk100⟩ := materialMultiplier_frac (jsToLower material)
  have hts : ts * 100 = ((jsRound (ts * 100) : ℤ) : ℚ) := by
    have h' := h
    unfold round2 at h'
    field_simp at h'
    linarith
  simp only [calculateQuoteWithMaterial]
  rw [hb, hk]
  rw [round2_int_cents ((b : ℚ) * ((k : ℚ) / 100) + ts) (b * k + jsRound (ts * 100))
    (by push_cast; field_simp; linarith)]
  rw [round2_int_cents ((b : ℚ) * ((k : ℚ) / 100 - 1)) (b * k - 100 * b)
    (by push_cast; field_simp; ring)]
  ring

/-- Witness for `total_eq_sum_of_cent_surcharge` at the high-risk stucco
scenario surcharge of 39.25. -/
theorem total_eq_sum_of_cent_surcharge_witness :
    (calculateQuoteWithMaterial 2 "stucco" (157/4)).total =
      (calculateQuoteWithMaterial 2 "stucco" (157/4)).breakdown.basePrice +
      (calculateQuoteWithMaterial 2 "stucco" (157/4)).breakdown.materialSurcharge +
      (calculateQuoteWithMaterial 2 "stucco" (157/4)).breakdown.travelSurcharge :=
  total_eq_sum_of_cent_surcharge 2 "stucco" (157/4)
    (by rw [round2_eq (157/4) 3925 (by norm_num) (by norm_num)]; norm_num)

/-- C3 counterexample: with a travel surcharge that is not a whole number
of cents (half a cent), the reported total is the rounded sum
500.01 while basePrice + materialSurcharge + travelSurcharge is 500.005, so
the equation of the claim fails for arbitrary nonnegative surcharges. -/
theorem total_not_sum_for_fractional_cents :
    (calculateQuoteWithMaterial 2 "vinyl" (1/200)).total ≠
      (calculateQuoteWithMaterial 2 "vinyl" (1/200)).breakdown.basePrice +
      (calculateQuoteWithMaterial 2 "vinyl" (1/200)).breakdown.materialSurcharge +
      (calculateQuoteWithMaterial 2 "vinyl" (1/200)).breakdown.travelSurcharge := by
  have hlow : jsToLower "vinyl" = "vinyl" := by decide
  have hB : jsOrDefault (BASE_RATE_PER_STORY 2) 650 = 500 := by
    norm_num [BASE_RATE_PER_STORY, jsOrDefault]
  have hM : jsOrDefault (MATERIAL_MULTIPLIERS "vinyl") 1.0 = 1 := by
    norm_num [MATERIAL_MULTIPLIERS, jsOrDefault]
  simp only [calculateQuoteWithMaterial, hlow, hB, hM]
  rw [show (500 : ℚ) * 1 + 1/200 = 100001/200 from by norm_num,
    show (500 : ℚ) * (1 - 1) = 0 from by norm_num,
    round2_eq (100001/200 : ℚ) 50001 (by norm_num) (by norm_num), round2_zero]
  norm_num

theorem routing_scenarioC_eval :
    calculateRouting "321 Cedar Lane, Mission, BC" true
      (ProviderOutcome.ok 35700 2520) =
    { distance := 357/10, duration := "42 mins", travelSurcharge := 157/4,
      isValid := true, error := none } := by
  have haddr : jsTrim "321 Cedar Lane, Mission, BC" ≠ "" := by decide
  simp only [calculateRouting, if_neg haddr, Bool.true_eq_false, if_false]
  rw [if_neg (by norm_num [MAX_SERVICE_DISTANCE_KM]),
    if_pos (by norm_num [SURCHARGE_THRESHOLD_KM])]
  rw [show (35700 : ℚ) / 1000 - SURCHARGE_THRESHOLD_KM = 157/10 from by
      norm_num [SURCHARGE_THRESHOLD_KM],
    show (157/10 : ℚ) * SURCHARGE_RATE_PER_KM = 157/4 from by
      norm_num [SURCHARGE_RATE_PER_KM],
    round2_eq (157/4 : ℚ) 3925 (by norm_num) (by norm_num),
    jsRound_eq ((2520 : ℚ) / 60) 42 (by norm_num) (by norm_num)]
  norm_num [RoutingResult.mk.injEq]
  decide

theorem quote_stucco_eval :
    calculateQuoteWithMaterial 2 "stucco" (157/4) =
    { basePrice := 500, materialMultiplier := 27/20, subtotal := 675,
      travelSurcharge := 157/4, total := 2857/4, minPrice := 714,
      maxPrice := 821,
      breakdown :=
        { basePrice := 500, materialSurcharge := 175,
          travelSurcharge := 157/4 } } := by
  have hlow : jsToLower "stucco" = "stucco" := by decide
  have hB : jsOrDefault (BASE_RATE_PER_STORY 2) 650 = 500 := by
    norm_num [BASE_RATE_PER_STORY, jsOrDefault]
  have hM0 : MATERIAL_MULTIPLIERS "stucco" = some (27/20) := by
    simp [MATERIAL_MULTIPLIERS]
    norm_num
  have hM : jsOrDefault (MATERIAL_MULTIPLIERS "stucco") 1.0 = 27/20 := by
    rw [hM0]
    norm_num [jsOrDefault]
  simp only [calculateQuoteWithMaterial, hlow, hB, hM]
  rw [show (500 : ℚ) * (27/20) + 157/4 = 2857/4 from by norm_num,
    show (500 : ℚ) * (27/20 - 1) = 175 from by norm_num,
    round2_int_cents (2857/4 : ℚ) 71425 (by norm_num),
    round2_int_cents (175 : ℚ) 17500 (by norm_num),
    jsRound_eq (2857/4 : ℚ) 714 (by norm_num) (by norm_num),
    jsRound_eq ((2857/4 : ℚ) * 1.15) 821 (by norm_num) (by norm_num)]
  norm_num [QuoteBreakdown.mk.injEq, Breakdown.mk.injEq]

/-- C2 counterexample: at the high-risk stucco scenario (2 stories, stucco,
35.7 km) the engine computes maxPrice 821, not the claimed 822
(round(714.25 * 1.15) = round(821.3875) = 821). -/
theorem scenarioC_maxPrice_not_822 :
    (calculateRouting "321 Cedar Lane, Mission, BC" true
      (ProviderOutcome.ok 35700 2520)).travelSurcharge = 39.25 ∧
    (calculateQuoteWithMaterial 2 "stucco" 39.25).maxPrice ≠ 822 := by
  rw [show (39.25 : ℚ) = 157/4 from by norm_num, routing_scenarioC_eval,
    quote_stucco_eval]
  norm_num

/-- C2 (amended): the high-risk stucco scenario yields
travelSurcharge 39.25, materialSurcharge 175, total 714.25, minPrice 714
and maxPrice 821 (the claim's 822 is off by one). -/
theorem scenarioC_quote :
    (calculateRouting "321 Cedar Lane, Mission, BC" true
      (ProviderOutcome.ok 35700 2520)).isValid = true ∧
    (calculateRouting "321 Cedar Lane, Mission, BC" true
      (ProviderOutcome.ok 35700 2520)).travelSurcharge = 39.25 ∧
    (calculateQuoteWithMaterial 2 "stucco" 39.25).breakdown.materialSurcharge = 175 ∧
    (calculateQuoteWithMaterial 2 "stucco" 39.25).total = 714.25 ∧
    (calculateQuoteWithMaterial 2 "stucco" 39.25).minPrice = 714 ∧
    (calculateQuoteWithMaterial 2 "stucco" 39.25).maxPrice = 821 := by
  rw [show (39.25 : ℚ) = 157/4 from by norm_num, routing_scenarioC_eval,
    quote_stucco_eval]
  norm_num

/-- C7: the material lookup depends only on the lowercased material name,
and a material whose lowercase form is not one of the three table keys is
priced with multiplier 1.0 and a zero material surcharge; the calculator
still returns a full quote (it is a total function), so the request is not
failed. -/
theorem material_lookup_defaults (stories ts : ℚ) (material material2 : String) :
    (jsToLower material = jsToLower material2 →
      calculateQuoteWithMaterial stories material ts =
        calculateQuoteWithMaterial stories material2 ts) ∧
    (jsToLower material ∉ (["vinyl", "brick", "stucco"] : List String) →
      (calculateQuoteWithMaterial stories material ts).materialMultiplier = 1 ∧
      (calculateQuoteWithMaterial stories material ts).breakdown.materialSurcharge = 0) := by
  constructor
  · intro h
    unfold calculateQuoteWithMaterial
    rw [h]
  · intro h
    simp only [List.mem_cons, List.not_mem_nil, or_false, not_or] at h
    obtain ⟨h1, h2, h3⟩ := h
    unfold calculateQuoteWithMaterial MATERIAL_MULTIPLIERS
    rw [if_neg h1, if_neg h2, if_neg h3]
    refine ⟨by norm_num [jsOrDefault], ?_⟩
    simp only [jsOrDefault]
    norm_num
    exact round2_zero

/-- C8: for every story count, material and nonnegative travel surcharge,
the quote range satisfies `minPrice ≤ maxPrice`, with
`minPrice = round(total)` and `maxPrice = round(total * 1.15)`. -/
theorem quote_price_range (stories : ℚ) (material : String) (ts : ℚ)
    (h : 0 ≤ ts) :
    (calculateQuoteWithMaterial stories material ts).minPrice ≤
      (calculateQuoteWithMaterial stories material ts).maxPrice ∧
    (calculateQuoteWithMaterial stories material ts).minPrice =
      jsRound (calculateQuoteWithMaterial stories material ts).total ∧
    (calculateQuoteWithMaterial stories material ts).maxPrice =
      jsRound ((calculateQuoteWithMaterial stories material ts).total * 1.15) := by
  obtain ⟨b, hb, hbpos⟩ := basePrice_int stories
  obtain ⟨k, hk, hk100⟩ := materialMultiplier_frac (jsToLower material)
  refine ⟨?_, rfl, rfl⟩
  simp only [calculateQuoteWithMaterial]
  rw [hb, hk]
  have hsub : (0 : ℚ) ≤ (b : ℚ) * ((k : ℚ) / 100) + ts := by
    have hb' : (0 : ℚ) ≤ (b : ℚ) := by exact_mod_cast le_of_lt hbpos
    have hk' : (0 : ℚ) ≤ (k : ℚ) / 100 := by positivity
    nlinarith
  have htot : (0 : ℚ) ≤ round2 ((b : ℚ) * ((k : ℚ) / 100) + ts) :=
    round2_nonneg hsub
  exact jsRound_mono (le_mul_of_one_le_right htot (by norm_num))

/-- Witness for `quote_price_range` at the local vinyl scenario. -/
theorem quote_price_range_witness :
    (calculateQuoteWithMaterial 2 "vinyl" 0).minPrice ≤
      (calculateQuoteWithMaterial 2 "vinyl" 0).maxPrice ∧
    (calculateQuoteWithMaterial 2 "vinyl" 0).minPrice =
      jsRound (calculateQuoteWithMaterial 2 "vinyl" 0).total ∧
    (calculateQuoteWithMaterial 2 "vinyl" 0).maxPrice =
      jsRound ((calculateQuoteWithMaterial 2 "vinyl" 0).total * 1.15) :=
  quote_price_range 2 "vinyl" 0 (by norm_num)

/-- C10: the missing-required-fields guard uses JavaScript truthiness, so a
body with `stories = 0`, `lat = 0` or `lng = 0` is answered with the
missing-fields 400 response, while `squareFeet = 0` (present but falsy) is
not rejected by this guard because it is compared against `undefined`
explicitly. -/
theorem missing_fields_truthiness (body : QuoteRequest) (hasKey : Bool)
    (provider : ProviderOutcome) :
    ((body.stories = 0 ∨ body.lat = 0 ∨ body.lng = 0) →
      handleQuotePost body hasKey provider = ApiResponse.missingFields) ∧
    (body.address ≠ "" → body.stories ≠ 0 → body.lat ≠ 0 → body.lng ≠ 0 →
      body.email ≠ "" → body.squareFeet = some 0 →
      handleQuotePost body hasKey provider ≠ ApiResponse.missingFields) := by
  constructor
  · intro h
    unfold handleQuotePost
    rw [if_pos (by tauto)]
  · intro ha hs hlat hlng he hsf
    simp only [handleQuotePost]
    rw [if_neg (by simp [ha, hs, hlat, hlng, he, hsf])]
    rw [hsf]
    split_ifs <;> simp

/-- C1 (amended): when the routing outcome is unserviceable with rejection
reason `OUT_OF_SERVICE_AREA` or `INVALID_ADDRESS`, the request handler never
answers with the 200 quote response, so no `QuoteBreakdown` is produced.
(For `API_ERROR`, the provider-error reason, the handler falls through to
the Quote Calculator instead; see the counterexample.) -/
theorem handler_rejects_unserviceable (body : QuoteRequest)
    (provider : ProviderOutcome)
    (hvalid : (calculateRouting body.address true provider).isValid = false)
    (herr : (calculateRouting body.address true provider).error =
        some RoutingError.OUT_OF_SERVICE_AREA ∨
      (calculateRouting body.address true provider).error =
        some RoutingError.INVALID_ADDRESS) :
    (handleQuotePost body true provider).isQuote = false := by
  simp only [handleQuotePost]
  split_ifs <;> simp_all [ApiResponse.isQuote]

theorem routing_sample_out_eval :
    calculateRouting sampleBody.address true (ProviderOutcome.ok 52300 0) =
    { distance := 523/10, duration := "0 mins", travelSurcharge := 0,
      isValid := false, error := some RoutingError.OUT_OF_SERVICE_AREA } := by
  have haddr : jsTrim sampleBody.address ≠ "" := by decide
  simp only [calculateRouting, if_neg haddr, Bool.true_eq_false, if_false]
  rw [if_pos (by norm_num [MAX_SERVICE_DISTANCE_KM]),
    jsRound_eq ((0 : ℚ) / 60) 0 (by norm_num) (by norm_num)]
  norm_num [RoutingResult.mk.injEq]
  decide

/-- Witness for `handler_rejects_unserviceable`: a valid body whose routing
comes back 52.3 km away is answered without a quote. -/
theorem handler_rejects_unserviceable_witness :
    (handleQuotePost sampleBody true (ProviderOutcome.ok 52300 0)).isQuote =
      false :=
  handler_rejects_unserviceable sampleBody (ProviderOutcome.ok 52300 0)
    (by rw [routing_sample_out_eval]) (Or.inl (by rw [routing_sample_out_eval]))

/-- C1 counterexample: on a provider error (`API_ERROR`, e.g. the fetch
throwing) the routing outcome is unserviceable, yet the handler falls
through the rejection checks, invokes the Quote Calculator, and answers
with a 200 quote response. -/
theorem handler_quotes_on_provider_error :
    (calculateRouting sampleBody.address true ProviderOutcome.fetchThrows).isValid =
      false ∧
    (calculateRouting sampleBody.address true ProviderOutcome.fetchThrows).error =
      some RoutingError.API_ERROR ∧
    (handleQuotePost sampleBody true ProviderOutcome.fetchThrows).isQuote =
      true := by
  have haddr : jsTrim sampleBody.address ≠ "" := by decide
  have hroute : calculateRouting sampleBody.address true ProviderOutcome.fetchThrows =
      apiErrorResult := by
    simp [calculateRouting, haddr]
  have hg : ¬ (sampleBody.address = "" ∨ sampleBody.stories = 0 ∨
      sampleBody.lat = 0 ∨ sampleBody.lng = 0 ∨ sampleBody.email = "" ∨
      sampleBody.squareFeet = none) := by
    simp only [sampleBody, not_or]
    refine ⟨by simp, by norm_num, by norm_num, by norm_num, by simp, by simp⟩
  refine ⟨by simp [hroute, apiErrorResult], by simp [hroute, apiErrorResult], ?_⟩
  simp only [handleQuotePost, hroute]
  rw [if_neg hg, if_neg (by norm_num [sampleBody]),
    if_neg (by decide), if_neg (by simp [apiErrorResult]),
    if_neg (by simp [apiErrorResult])]
  rfl

end PressureWash
